import Mathlib

/-!
Verification of the qemacs dired directory-listing core (src/modes/dired.c).

The definitions below are a shallow embedding of the C source: machine
integers become Nat/Int, the bitmask state becomes records of booleans,
and the stateful loops become explicit accumulator-passing recursion.
Helper functions of the surrounding editor that are not part of the file
(qe_strcollate, get_extension, clamp_int, strxcmp, qe_qsort_r) are
modelled from the specification and are marked as such.
-/

set_option maxRecDepth 4096

namespace Dired

/-! ## Mode bits (POSIX `sys/stat.h` constants used by dired.c) -/

def S_IFMT   : Nat := 0o170000
def S_IFDIR  : Nat := 0o040000
def S_IFCHR  : Nat := 0o020000
def S_IFBLK  : Nat := 0o060000
def S_IFREG  : Nat := 0o100000
def S_IFIFO  : Nat := 0o010000
def S_IFLNK  : Nat := 0o120000
def S_IFSOCK : Nat := 0o140000

def S_ISUID : Nat := 0o4000
def S_ISGID : Nat := 0o2000
def S_ISVTX : Nat := 0o1000

def S_IRUSR : Nat := 0o400
def S_IWUSR : Nat := 0o200
def S_IXUSR : Nat := 0o100
def S_IRGRP : Nat := 0o040
def S_IWGRP : Nat := 0o020
def S_IXGRP : Nat := 0o010
def S_IROTH : Nat := 0o004
def S_IWOTH : Nat := 0o002
def S_IXOTH : Nat := 0o001

def S_ISDIR (m : Nat) : Bool := m &&& S_IFMT == S_IFDIR
def S_ISCHR (m : Nat) : Bool := m &&& S_IFMT == S_IFCHR
def S_ISBLK (m : Nat) : Bool := m &&& S_IFMT == S_IFBLK
def S_ISREG (m : Nat) : Bool := m &&& S_IFMT == S_IFREG
def S_ISFIFO (m : Nat) : Bool := m &&& S_IFMT == S_IFIFO
def S_ISLNK (m : Nat) : Bool := m &&& S_IFMT == S_IFLNK
def S_ISSOCK (m : Nat) : Bool := m &&& S_IFMT == S_IFSOCK

/-! ## DiredItem (struct DiredItem, dired.c lines 102-115) -/

structure DiredItem where
  name : List Char
  mode : Nat
  nlink : Nat
  uid : Nat
  gid : Nat
  rdev : Nat
  mtime : Int
  size : Nat
  hidden : Bool
  mark : Char
deriving Repr, DecidableEq

/-! ## Filter engine (dired_filter_files, dired.c lines 540-577) -/

/-- Head-character test corresponding to the C expression p[0] equal to dot. -/
def startsWithDot : List Char → Bool
  | c :: _ => c == '.'
  | [] => false

def dsStoreName : List Char := ".DS_Store".toList

/-- The hidden-ness test of dired_filter_files (lines 555-559):
the dot-check guards the whole conditional, and inside it the entry is
hidden when dot-files are off, or when it is `.DS_Store` and system
files are off. -/
def entryHidden (showDotFiles showDsStore : Bool) (name : List Char) : Bool :=
  if startsWithDot name then
    (!showDotFiles) || (!showDsStore && name == dsStoreName)
  else false

/-- Aggregate counters maintained by dired_filter_files. -/
structure FilterCounts where
  totalBytes : Nat
  ndirs : Nat
  nfiles : Nat
  ndirsHidden : Nat
  nfilesHidden : Nat
deriving Repr, DecidableEq

/-- The loop body of dired_filter_files: tag each item's hidden flag and
accumulate the counters, in list order. -/
def filterLoop (showDotFiles showDsStore : Bool) (acc : FilterCounts) :
    List DiredItem → List DiredItem × FilterCounts
  | [] => ([], acc)
  | d :: rest =>
    let hidden := entryHidden showDotFiles showDsStore d.name
    let acc' :=
      if hidden then
        if S_ISDIR d.mode then
          { acc with ndirsHidden := acc.ndirsHidden + 1 }
        else
          { acc with nfilesHidden := acc.nfilesHidden + 1 }
      else
        if S_ISDIR d.mode then
          { acc with ndirs := acc.ndirs + 1 }
        else
          { acc with nfiles := acc.nfiles + 1,
                     totalBytes := acc.totalBytes + d.size }
    let rec' := filterLoop showDotFiles showDsStore acc' rest
    ({ d with hidden := hidden } :: rec'.1, rec'.2)

/-- dired_filter_files: resets the counters and runs the loop over the
item collection. -/
def diredFilterFiles (showDotFiles showDsStore : Bool) (items : List DiredItem) :
    List DiredItem × FilterCounts :=
  filterLoop showDotFiles showDsStore ⟨0, 0, 0, 0, 0⟩ items

lemma entryHidden_eq_or (sd ss : Bool) (n : List Char) :
    entryHidden sd ss n = ((startsWithDot n && !sd) || (n == dsStoreName && !ss)) := by
  by_cases h : startsWithDot n = true
  · simp [entryHidden, h, Bool.and_comm]
  · have hds : (n == dsStoreName) = false := by
      cases hn : n == dsStoreName
      · rfl
      · exfalso
        have : n = dsStoreName := by exact_mod_cast eq_of_beq hn
        subst this
        simp [startsWithDot, dsStoreName] at h
    simp [entryHidden, h, hds]

lemma filterLoop_fst (sd ss : Bool) (items : List DiredItem) (acc : FilterCounts) :
    (filterLoop sd ss acc items).1 =
      items.map (fun d => { d with hidden := entryHidden sd ss d.name }) := by
  induction items generalizing acc with
  | nil => simp [filterLoop]
  | cons d rest ih => simp [filterLoop, ih]

/-- Claim C1: for every entry processed by the filter engine, the
resulting hidden flag is the OR of the two independent conditions
(name starts with a dot and dot-files are off; name is `.DS_Store` and
system files are off); in particular enabling dot-file visibility alone
does not reveal `.DS_Store` when system-file visibility is off. -/
theorem filter_hidden_is_or_of_conditions (sd ss : Bool) (items : List DiredItem) :
    ((diredFilterFiles sd ss items).1.map (fun d => d.hidden) =
      items.map (fun d => (startsWithDot d.name && !sd) || (d.name == dsStoreName && !ss)))
    ∧ entryHidden true false dsStoreName = true := by
  constructor
  · rw [diredFilterFiles, filterLoop_fst]
    rw [List.map_map]
    apply List.map_congr_left
    intro d _
    simp [entryHidden_eq_or]
  · decide

lemma filterLoop_counts (sd ss : Bool) (items : List DiredItem) (acc : FilterCounts) :
    (filterLoop sd ss acc items).2.ndirs =
      acc.ndirs + (items.filter (fun d => !(entryHidden sd ss d.name) && S_ISDIR d.mode)).length
    ∧ (filterLoop sd ss acc items).2.ndirsHidden =
      acc.ndirsHidden + (items.filter (fun d => entryHidden sd ss d.name && S_ISDIR d.mode)).length
    ∧ (filterLoop sd ss acc items).2.nfiles =
      acc.nfiles + (items.filter (fun d => !(entryHidden sd ss d.name) && !(S_ISDIR d.mode))).length
    ∧ (filterLoop sd ss acc items).2.nfilesHidden =
      acc.nfilesHidden + (items.filter (fun d => entryHidden sd ss d.name && !(S_ISDIR d.mode))).length
    ∧ (filterLoop sd ss acc items).2.totalBytes =
      acc.totalBytes +
        ((items.filter (fun d => !(entryHidden sd ss d.name) && !(S_ISDIR d.mode))).map
          (fun d => d.size)).sum := by
  induction items generalizing acc with
  | nil => simp [filterLoop]
  | cons d rest ih =>
    by_cases hh : entryHidden sd ss d.name = true
    · by_cases hd : S_ISDIR d.mode = true
      · obtain ⟨h1, h2, h3, h4, h5⟩ := ih { acc with ndirsHidden := acc.ndirsHidden + 1 }
        simp [filterLoop, hh, hd, h1, h2, h3, h4, h5]
        try omega
      · obtain ⟨h1, h2, h3, h4, h5⟩ := ih { acc with nfilesHidden := acc.nfilesHidden + 1 }
        simp [filterLoop, hh, hd, h1, h2, h3, h4, h5]
        try omega
    · by_cases hd : S_ISDIR d.mode = true
      · obtain ⟨h1, h2, h3, h4, h5⟩ := ih { acc with ndirs := acc.ndirs + 1 }
        simp [filterLoop, hh, hd, h1, h2, h3, h4, h5]
        try omega
      · obtain ⟨h1, h2, h3, h4, h5⟩ := ih
          { acc with nfiles := acc.nfiles + 1, totalBytes := acc.totalBytes + d.size }
        simp [filterLoop, hh, hd, h1, h2, h3, h4, h5]
        try omega

lemma length_filter_bool_split {α : Type} (h p : α → Bool) (l : List α) :
    (l.filter (fun a => !(h a) && p a)).length + (l.filter (fun a => h a && p a)).length =
      (l.filter p).length := by
  induction l with
  | nil => simp
  | cons a l ih =>
    cases hha : h a <;> cases hpa : p a <;> simp [hha, hpa] <;> omega

lemma filtered_sizes_of_map (sd ss : Bool) (items : List DiredItem) :
    (((items.map (fun d => { d with hidden := entryHidden sd ss d.name })).filter
        (fun d => !d.hidden && !(S_ISDIR d.mode))).map (fun d => d.size)) =
      ((items.filter (fun d => !(entryHidden sd ss d.name) && !(S_ISDIR d.mode))).map
        (fun d => d.size)) := by
  induction items with
  | nil => simp
  | cons d rest ih =>
    by_cases hh : entryHidden sd ss d.name = true <;>
      by_cases hd : S_ISDIR d.mode = true <;>
        simp [hh, hd, ih]

/-- Claim C5: after the filter engine runs, visible plus hidden directory
counts equal the number of directory entries, visible plus hidden file
counts equal the number of non-directory entries, and the visible-bytes
total is the sum of sizes over entries that are neither hidden nor
directories. -/
theorem filter_aggregate_invariant (sd ss : Bool) (items : List DiredItem) :
    (diredFilterFiles sd ss items).2.ndirs + (diredFilterFiles sd ss items).2.ndirsHidden =
      (items.filter (fun d => S_ISDIR d.mode)).length
    ∧ (diredFilterFiles sd ss items).2.nfiles + (diredFilterFiles sd ss items).2.nfilesHidden =
      (items.filter (fun d => !(S_ISDIR d.mode))).length
    ∧ (diredFilterFiles sd ss items).2.totalBytes =
      (((diredFilterFiles sd ss items).1.filter
          (fun d => !d.hidden && !(S_ISDIR d.mode))).map (fun d => d.size)).sum := by
  obtain ⟨h1, h2, h3, h4, h5⟩ := filterLoop_counts sd ss items ⟨0, 0, 0, 0, 0⟩
  have hs := length_filter_bool_split (fun d => entryHidden sd ss d.name)
    (fun d => S_ISDIR d.mode) items
  have hf := length_filter_bool_split (fun d => entryHidden sd ss d.name)
    (fun d => !(S_ISDIR d.mode)) items
  refine ⟨?_, ?_, ?_⟩
  · simp only [diredFilterFiles, h1, h2]
    omega
  · simp only [diredFilterFiles, h3, h4]
    omega
  · simp only [diredFilterFiles, h5, filterLoop_fst, filtered_sizes_of_map]
    simp

/-! ## Sort engine (dired_sort_func, dired.c lines 224-266) -/

def DIRED_SORT_NAME : Nat := 1
def DIRED_SORT_EXTENSION : Nat := 2
def DIRED_SORT_SIZE : Nat := 4
def DIRED_SORT_DATE : Nat := 8
def DIRED_SORT_MASK : Nat := 1 + 2 + 4 + 8
def DIRED_SORT_GROUP : Nat := 16
def DIRED_SORT_DESCENDING : Nat := 32

/-- Modelled from the spec: qe_strcollate is the locale-aware string
comparison named by the spec (defined outside src/); modelled as
character-code lexicographic comparison returning -1, 0 or 1. -/
def qe_strcollate : List Char → List Char → Int
  | [], [] => 0
  | [], _ :: _ => -1
  | _ :: _, [] => 1
  | a :: as, b :: bs => if a < b then -1 else if b < a then 1 else qe_strcollate as bs

/-- Modelled from the spec: get_extension (defined outside src/) yields
the substring after the last dot of the name, empty when there is none. -/
def get_extension (name : List Char) : List Char :=
  match name with
  | [] => []
  | c :: rest =>
    let tail := get_extension rest
    if c == '.' && tail == [] && rest.contains '.' == false then rest else tail

/-- The tie-break loop of dired_sort_func (lines 243-264): date key,
then size key, then extension key, each falling through on equality,
with the full-name collation as the final tie-break. -/
def diredSortKey (sortMode : Nat) (dip1 dip2 : DiredItem) : Int :=
  if sortMode &&& DIRED_SORT_DATE ≠ 0 ∧ dip1.mtime ≠ dip2.mtime then
    if dip1.mtime < dip2.mtime then -1 else 1
  else if sortMode &&& DIRED_SORT_SIZE ≠ 0 ∧ dip1.size ≠ dip2.size then
    if dip1.size < dip2.size then -1 else 1
  else if sortMode &&& DIRED_SORT_EXTENSION ≠ 0 ∧
          qe_strcollate (get_extension dip1.name) (get_extension dip2.name) ≠ 0 then
    qe_strcollate (get_extension dip1.name) (get_extension dip2.name)
  else
    qe_strcollate dip1.name dip2.name

/-- dired_sort_func: the grouping step returns before the descending
negation is applied; only the loop's result is negated. -/
def diredSortFunc (sortMode : Nat) (dip1 dip2 : DiredItem) : Int :=
  if sortMode &&& DIRED_SORT_GROUP ≠ 0 ∧ S_ISDIR dip1.mode ≠ S_ISDIR dip2.mode then
    (if S_ISDIR dip2.mode then 1 else 0) - (if S_ISDIR dip1.mode then 1 else 0)
  else
    let res := diredSortKey sortMode dip1 dip2
    if sortMode &&& DIRED_SORT_DESCENDING ≠ 0 then -res else res

/-- Claim C2: with grouping enabled the comparator puts directories
before non-directories for every sort mode, ascending or descending:
the grouping step's result is returned before the descending negation,
which applies only to the primary-key and name tie-break result. -/
theorem sort_group_first_unaffected_by_descending (sortMode : Nat) (dip1 dip2 : DiredItem) :
    (sortMode &&& DIRED_SORT_GROUP ≠ 0 → S_ISDIR dip1.mode = true → S_ISDIR dip2.mode = false →
      diredSortFunc sortMode dip1 dip2 = -1 ∧ diredSortFunc sortMode dip2 dip1 = 1)
    ∧ ((sortMode &&& DIRED_SORT_GROUP = 0 ∨ S_ISDIR dip1.mode = S_ISDIR dip2.mode) →
      diredSortFunc sortMode dip1 dip2 =
        (if sortMode &&& DIRED_SORT_DESCENDING ≠ 0 then
          -(diredSortKey sortMode dip1 dip2) else diredSortKey sortMode dip1 dip2)) := by
  constructor
  · intro hg h1 h2
    constructor
    · rw [diredSortFunc]
      rw [if_pos ⟨hg, by rw [h1, h2]; simp⟩]
      rw [h1, h2]
      simp
    · rw [diredSortFunc]
      rw [if_pos ⟨hg, by rw [h1, h2]; simp⟩]
      rw [h1, h2]
      simp
  · intro h
    rw [diredSortFunc]
    rcases h with h | h
    · rw [if_neg]
      rintro ⟨hg, _⟩
      exact hg h
    · rw [if_neg]
      rintro ⟨_, hne⟩
      exact hne h

def sampleDirItem : DiredItem :=
  ⟨"sub".toList, 0o40755, 2, 1000, 1000, 0, 100, 64, false, ' '⟩

def sampleFileItem : DiredItem :=
  ⟨"a.txt".toList, 0o100644, 1, 1000, 1000, 0, 200, 100, false, ' '⟩

/-- Witness for C2 at a concrete directory/file pair with the sort mode
set to name, grouping and descending (1+16+32 = 49). -/
theorem sort_group_first_unaffected_by_descending_witness :
    diredSortFunc 49 sampleDirItem sampleFileItem = -1 ∧
    diredSortFunc 49 sampleFileItem sampleDirItem = 1 :=
  (sort_group_first_unaffected_by_descending 49 sampleDirItem sampleFileItem).1
    (by decide) (by decide) (by decide)

/-! ## Permission string (compute_attr, dired.c lines 475-538) -/

/-- compute_attr: starts from ten dashes, sets the type glyph, then the
nine permission positions in source order. The sticky-bit branch
(line 535) writes position 6 while testing S_IXOTH, exactly as the C
does. -/
def computeAttr (mode : Nat) : List Char :=
  let atts := "----------".toList
  let atts :=
    if !(S_ISREG mode) then
      let atts := if S_ISDIR mode then atts.set 0 'd' else atts
      let atts := if S_ISBLK mode then atts.set 0 'b' else atts
      let atts := if S_ISCHR mode then atts.set 0 'c' else atts
      let atts := if S_ISFIFO mode then atts.set 0 'p' else atts
      let atts := if S_ISSOCK mode then atts.set 0 's' else atts
      let atts := if S_ISLNK mode then atts.set 0 'l' else atts
      atts
    else atts
  let atts := if mode &&& S_IRUSR ≠ 0 then atts.set 1 'r' else atts
  let atts := if mode &&& S_IWUSR ≠ 0 then atts.set 2 'w' else atts
  let atts := if mode &&& S_IXUSR ≠ 0 then atts.set 3 'x' else atts
  let atts := if mode &&& S_ISUID ≠ 0 then
      atts.set 3 (if mode &&& S_IXUSR ≠ 0 then 's' else 'S') else atts
  let atts := if mode &&& S_IRGRP ≠ 0 then atts.set 4 'r' else atts
  let atts := if mode &&& S_IWGRP ≠ 0 then atts.set 5 'w' else atts
  let atts := if mode &&& S_IXGRP ≠ 0 then atts.set 6 'x' else atts
  let atts := if mode &&& S_ISGID ≠ 0 then
      atts.set 6 (if mode &&& S_IXGRP ≠ 0 then 's' else 'S') else atts
  let atts := if mode &&& S_IROTH ≠ 0 then atts.set 7 'r' else atts
  let atts := if mode &&& S_IWOTH ≠ 0 then atts.set 8 'w' else atts
  let atts := if mode &&& S_IXOTH ≠ 0 then atts.set 9 'x' else atts
  let atts := if mode &&& S_ISVTX ≠ 0 then
      atts.set 6 (if mode &&& S_IXOTH ≠ 0 then 't' else 'T') else atts
  atts

/-- Claim C3: for a mode with the sticky bit set (a 0o1777 directory)
the produced string is 10 characters, but the sticky glyph lands at
index 6 (the group-execute position, clobbering any setgid glyph, with
its case chosen by the other-execute bit), while index 9 stays the
plain other-execute glyph: the code contradicts the claimed
other-execute placement. -/
theorem computeAttr_sticky_glyph_at_group_position :
    computeAttr 0o41777 = "drwxrwtrwx".toList
    ∧ (computeAttr 0o41777).length = 10
    ∧ (computeAttr 0o41777).getD 6 ' ' = 't'
    ∧ (computeAttr 0o41777).getD 9 ' ' = 'x' := by
  decide

/-! ## Size formatter (format_number, dired.c lines 268-308) -/

/-- The metric branch of format_number (human > 1): divide by 1000
while at least 1000 and a next suffix exists, emitting the one-decimal
form when the value is under 10000. -/
def fmtHuman1000 : List Char → Nat → String
  | s0 :: s1 :: rest, number =>
    if number ≥ 1000 then
      if number < 10000 then
        String.mk [Char.ofNat ('0'.toNat + number / 1000), '.',
                   Char.ofNat ('0'.toNat + number / 100 % 10), s1]
      else fmtHuman1000 (s1 :: rest) (number / 1000)
    else toString number ++ String.mk [s0]
  | [s0], number => toString number ++ String.mk [s0]
  | [], number => toString number

/-- The geek branch of format_number (human = 1): shift by 10 bits
while at least 1000 (not 1024) and a next suffix exists, emitting the
one-decimal form when the value is under 10200. -/
def fmtHuman1024 : List Char → Nat → String
  | s0 :: s1 :: rest, number =>
    if number ≥ 1000 then
      if number < 10200 then
        String.mk [Char.ofNat ('0'.toNat + number / 1020), '.',
                   Char.ofNat ('0'.toNat + number / 102 % 10), s1]
      else fmtHuman1024 (s1 :: rest) (number / 1024)
    else toString number ++ String.mk [s0]
  | [s0], number => toString number ++ String.mk [s0]
  | [], number => toString number

/-- format_number: exact for human = 0, metric for human > 1, binary
(powers of 1024) for human = 1. -/
def formatNumber (human number : Nat) : String :=
  if human == 0 then toString number
  else if human > 1 then fmtHuman1000 "BkMGTPEZY".toList number
  else fmtHuman1024 "BKMGTPEZY".toList number

/-- Counterexample for C4: in the binary-human mode the plain B-suffixed
form already ends at 1000, not at the claimed 1024 step: 1000 bytes
renders as the fractional form 0.9K. -/
theorem formatNumber_binary_plain_form_ends_before_1024 :
    (1000 : Nat) < 1024
    ∧ formatNumber 1 1000 = "0.9K"
    ∧ formatNumber 1 1000 ≠ "1000B" := by
  refine ⟨by decide, ?_, ?_⟩
  · rfl
  · decide

/-- Claim C4 (amended): exact mode prints the plain decimal count (999
renders as 999); decimal-human leaves the plain B form at 1000 and uses
the one-fractional-digit form with suffix k below 10000; binary-human
leaves the plain B form at 1000 (not 1024; the division step is by
1024 but the loop guard is 1000) and uses the one-fractional-digit
form with suffix K below the 10200 pre-shift cutoff. -/
theorem formatNumber_threshold_transitions (n : Nat) :
    (formatNumber 0 n = toString n)
    ∧ (n < 1000 → formatNumber 2 n = toString n ++ "B")
    ∧ (1000 ≤ n → n < 10000 →
        formatNumber 2 n = String.mk [Char.ofNat ('0'.toNat + n / 1000), '.',
                                      Char.ofNat ('0'.toNat + n / 100 % 10), 'k'])
    ∧ (n < 1000 → formatNumber 1 n = toString n ++ "B")
    ∧ (1000 ≤ n → n < 10200 →
        formatNumber 1 n = String.mk [Char.ofNat ('0'.toNat + n / 1020), '.',
                                      Char.ofNat ('0'.toNat + n / 102 % 10), 'K'])
    ∧ formatNumber 0 999 = "999"
    ∧ formatNumber 2 1000 = "1.0k" := by
  refine ⟨rfl, ?_, ?_, ?_, ?_, rfl, rfl⟩
  · intro h
    show fmtHuman1000 ('B' :: 'k' :: "MGTPEZY".toList) n = toString n ++ "B"
    rw [fmtHuman1000, if_neg (by omega)]
  · intro h1 h2
    show fmtHuman1000 ('B' :: 'k' :: "MGTPEZY".toList) n = _
    rw [fmtHuman1000]
    rw [if_pos (show n ≥ 1000 by omega)]
    rw [if_pos (show n < 10000 by omega)]
  · intro h
    show fmtHuman1024 ('B' :: 'K' :: "MGTPEZY".toList) n = toString n ++ "B"
    rw [fmtHuman1024, if_neg (by omega)]
  · intro h1 h2
    show fmtHuman1024 ('B' :: 'K' :: "MGTPEZY".toList) n = _
    rw [fmtHuman1024]
    rw [if_pos (show n ≥ 1000 by omega)]
    rw [if_pos (show n < 10200 by omega)]

/-- Witness for the amended C4 at the documented boundary inputs. -/
theorem formatNumber_threshold_transitions_witness :
    ((1000 : Nat) ≤ 1000 ∧ (1000 : Nat) < 10200)
    ∧ formatNumber 1 1000 = String.mk [Char.ofNat ('0'.toNat + 1000 / 1020), '.',
                                       Char.ofNat ('0'.toNat + 1000 / 102 % 10), 'K']
    ∧ formatNumber 2 999 = toString 999 ++ "B" :=
  ⟨⟨by decide, by decide⟩,
   (formatNumber_threshold_transitions 1000).2.2.2.2.1 (by decide) (by decide),
   (formatNumber_threshold_transitions 999).2.1 (by decide)⟩

/-! ## Column layout engine (dired_update_buffer, dired.c lines 692-718) -/

def DIRED_DETAILS_AUTO : Nat := 0
def DIRED_DETAILS_HIDE : Nat := 1
def DIRED_DETAILS_SHOW : Nat := 2

/-- Cached per-field maximum widths (DiredState fields, line 96). -/
structure ColWidths where
  blockslen : Nat
  modelen : Nat
  linklen : Nat
  uidlen : Nat
  gidlen : Nat
  sizelen : Nat
  datelen : Nat
  namelen : Nat
deriving Repr, DecidableEq

/-- The details_mask bitmask as one boolean per DIRED_SHOW_* bit. -/
structure DetailsMask where
  blocks : Bool
  mode : Bool
  links : Bool
  uid : Bool
  gid : Bool
  size : Bool
  date : Bool
deriving Repr, DecidableEq

/-- Modelled from the spec: clamp_int (defined outside src/) bounds a
value to the closed interval between the two bounds. -/
def clampInt (x lo hi : Int) : Int :=
  if x < lo then lo else if x > hi then hi else x

/-- The auto-mode branch (lines 703-717) with its running width after
each subtraction. Each mask bit starts set (DIRED_SHOW_ALL) and the
XOR toggle clears it; when nflag = 2 the uid/gid subtractions are
short-circuited away. The final XOR clears the blocks bit
unconditionally. -/
structure AutoTrace where
  w1 : Int
  w2 : Int
  w3 : Int
  w4 : Int
  w5 : Int
  w6 : Int
  mask : DetailsMask
deriving Repr, DecidableEq

def diredAutoMask (cw : ColWidths) (nflag : Nat) (width : Int) : AutoTrace :=
  let w1 := width - ((cw.sizelen : Int) + 2)
  let showSize := decide (0 ≤ w1)
  let w2 := w1 - ((cw.datelen : Int) + 2)
  let showDate := decide (0 ≤ w2)
  let w3 := w2 - ((cw.modelen : Int) + 1)
  let showMode := decide (0 ≤ w3)
  let w4 := if nflag == 2 then w3 else w3 - ((cw.uidlen : Int) + 1)
  let showUid := if nflag == 2 then false else decide (0 ≤ w4)
  let w5 := if nflag == 2 then w4 else w4 - ((cw.gidlen : Int) + 1)
  let showGid := if nflag == 2 then false else decide (0 ≤ w5)
  let w6 := w5 - ((cw.linklen : Int) + 1)
  let showLinks := decide (0 ≤ w6)
  ⟨w1, w2, w3, w4, w5, w6,
   ⟨false, showMode, showLinks, showUid, showGid, showSize, showDate⟩⟩

/-- Lines 698-718: reserve the clamped name column, then dispatch on
the detail mode: hidden clears the mask, auto runs the greedy pass,
and any other mode (shown) keeps DIRED_SHOW_ALL. -/
def diredDetailsMask (cw : ColWidths) (nflag detailsFlag : Nat) (width : Int) : DetailsMask :=
  let width := width - clampInt (cw.namelen : Int) 16 40
  if detailsFlag == DIRED_DETAILS_HIDE then
    ⟨false, false, false, false, false, false, false⟩
  else if detailsFlag == DIRED_DETAILS_AUTO then
    (diredAutoMask cw nflag width).mask
  else
    ⟨true, true, true, true, true, true, true⟩

/-- Width plus separator charged for each shown optional column, with
the amounts the auto-mode budget accounting uses. -/
def shownCost (cw : ColWidths) (m : DetailsMask) : Int :=
  (if m.size then (cw.sizelen : Int) + 2 else 0) +
  (if m.date then (cw.datelen : Int) + 2 else 0) +
  (if m.mode then (cw.modelen : Int) + 1 else 0) +
  (if m.uid then (cw.uidlen : Int) + 1 else 0) +
  (if m.gid then (cw.gidlen : Int) + 1 else 0) +
  (if m.links then (cw.linklen : Int) + 1 else 0) +
  (if m.blocks then (cw.blockslen : Int) + 1 else 0)

def sampleWidths : ColWidths := ⟨3, 10, 2, 5, 5, 6, 12, 20⟩

/-- Counterexample for C6: with the detail mode set to shown, every
optional column is kept regardless of the display width, so the shown
cost exceeds the budget at display width 20. -/
theorem layout_budget_exceeded_in_show_mode :
    ¬ (shownCost sampleWidths (diredDetailsMask sampleWidths 0 DIRED_DETAILS_SHOW 20) ≤
        20 - clampInt (sampleWidths.namelen : Int) 16 40) := by
  decide

/-- Claim C6 (amended): in the hidden and auto detail modes, and
whenever the display width is at least the clamped name-column width,
the sum of the shown optional column widths plus separators stays
within the budget of display width minus the clamped name width (the
shown detail mode ignores the budget). -/
theorem layout_budget_invariant_hide_auto (cw : ColWidths) (nflag detailsFlag : Nat)
    (width : Int)
    (hmode : detailsFlag = DIRED_DETAILS_HIDE ∨ detailsFlag = DIRED_DETAILS_AUTO)
    (hw : clampInt (cw.namelen : Int) 16 40 ≤ width) :
    shownCost cw (diredDetailsMask cw nflag detailsFlag width) ≤
      width - clampInt (cw.namelen : Int) 16 40 := by
  rcases hmode with h | h <;> subst h
  · simp only [diredDetailsMask, DIRED_DETAILS_HIDE, shownCost]
    simp
    omega
  · simp only [diredDetailsMask, diredAutoMask, DIRED_DETAILS_AUTO, DIRED_DETAILS_HIDE,
      shownCost, beq_iff_eq, decide_eq_true_eq]
    simp only [Nat.reduceBEq, Bool.false_eq_true, if_false, ite_false, ite_true,
      decide_eq_true_eq, if_true]
    split_ifs <;>
      (try simp only [decide_eq_true_eq] at *) <;>
      omega

/-- Witness for the amended C6 in auto mode at display width 100. -/
theorem layout_budget_invariant_hide_auto_witness :
    shownCost sampleWidths (diredDetailsMask sampleWidths 0 DIRED_DETAILS_AUTO 100) ≤
      100 - clampInt (sampleWidths.namelen : Int) 16 40 :=
  layout_budget_invariant_hide_auto sampleWidths 0 DIRED_DETAILS_AUTO 100
    (Or.inr rfl) (by decide)

/-! ## Auto-mode drop priority: spec-side description (C7) -/

inductive OptCol
  | size
  | date
  | mode
  | uid
  | gid
  | links
deriving DecidableEq, Repr

/-- Follows the spec's words (section 4.5): the fixed priority order in
which auto mode considers the optional columns. -/
def optColOrder : List OptCol := [.size, .date, .mode, .uid, .gid, .links]

/-- Follows the spec's words: each optional column's width plus its
separator. -/
def optColCost (cw : ColWidths) : OptCol → Int
  | .size => (cw.sizelen : Int) + 2
  | .date => (cw.datelen : Int) + 2
  | .mode => (cw.modelen : Int) + 1
  | .uid => (cw.uidlen : Int) + 1
  | .gid => (cw.gidlen : Int) + 1
  | .links => (cw.linklen : Int) + 1

/-- Follows the spec's words: owner and group are additionally dropped
whenever owner/group display is forced fully numeric. -/
def forcedNumericDrop (nflag : Nat) : OptCol → Bool
  | .uid => nflag == 2
  | .gid => nflag == 2
  | _ => false

/-- Follows the spec's words: one greedy step — a forced-numeric column
is dropped without charging the budget; otherwise its cost is charged
and the column is kept only when the remaining budget has not gone
negative. -/
def specAutoStep (cw : ColWidths) (nflag : Nat) (st : Int × List OptCol) (c : OptCol) :
    Int × List OptCol :=
  if forcedNumericDrop nflag c then st
  else
    (st.1 - optColCost cw c,
     if 0 ≤ st.1 - optColCost cw c then st.2 ++ [c] else st.2)

/-- Follows the spec's words: the greedy single pass over the priority
order, returning the kept columns. -/
def specAutoShown (cw : ColWidths) (nflag : Nat) (budget : Int) : List OptCol :=
  (optColOrder.foldl (specAutoStep cw nflag) (budget, [])).2

/-- Follows the spec's words: the mask holding the kept columns, with
the block-count column always excluded. -/
def specMaskOf (shown : List OptCol) : DetailsMask :=
  ⟨false, decide (OptCol.mode ∈ shown), decide (OptCol.links ∈ shown),
   decide (OptCol.uid ∈ shown), decide (OptCol.gid ∈ shown),
   decide (OptCol.size ∈ shown), decide (OptCol.date ∈ shown)⟩

set_option maxHeartbeats 1600000 in
/-- Claim C7: in auto detail mode the computed mask coincides, for every
set of cached widths, numeric flag and display width, with the spec's
greedy drop pass in the priority order size, date, mode, owner, group,
links, with owner/group additionally dropped when display is forced
fully numeric, and with block count always excluded. -/
theorem auto_mode_mask_refines_spec_priority (cw : ColWidths) (nflag : Nat) (width : Int) :
    diredDetailsMask cw nflag DIRED_DETAILS_AUTO width =
      specMaskOf (specAutoShown cw nflag (width - clampInt (cw.namelen : Int) 16 40))
    ∧ (diredDetailsMask cw nflag DIRED_DETAILS_AUTO width).blocks = false := by
  constructor
  · by_cases hn : nflag = 2
    · simp only [diredDetailsMask, DIRED_DETAILS_AUTO, DIRED_DETAILS_HIDE, diredAutoMask,
        specAutoShown, optColOrder, List.foldl_cons, List.foldl_nil, specAutoStep,
        forcedNumericDrop, optColCost, specMaskOf, hn]
      norm_num
      split_ifs <;> simp_all
    · have hb : (nflag == 2) = false := by simp [hn]
      simp only [diredDetailsMask, DIRED_DETAILS_AUTO, DIRED_DETAILS_HIDE, diredAutoMask,
        specAutoShown, optColOrder, List.foldl_cons, List.foldl_nil, specAutoStep,
        forcedNumericDrop, optColCost, specMaskOf, hb]
      norm_num
      split_ifs <;> simp_all
  · simp only [diredDetailsMask, DIRED_DETAILS_AUTO, DIRED_DETAILS_HIDE, diredAutoMask]
    norm_num

/-- Claim C10: in auto detail mode, once a width-checked column has been
dropped because the running budget went negative, every later
width-checked column in the priority order is dropped as well: the
running widths never increase, so a negative budget stays negative. -/
theorem auto_mode_drops_are_monotone (cw : ColWidths) (nflag : Nat) (width : Int) :
    ((diredAutoMask cw nflag width).w1 < 0 →
      (diredAutoMask cw nflag width).mask.date = false ∧
      (diredAutoMask cw nflag width).mask.mode = false ∧
      (diredAutoMask cw nflag width).mask.uid = false ∧
      (diredAutoMask cw nflag width).mask.gid = false ∧
      (diredAutoMask cw nflag width).mask.links = false)
    ∧ ((diredAutoMask cw nflag width).w2 < 0 →
      (diredAutoMask cw nflag width).mask.mode = false ∧
      (diredAutoMask cw nflag width).mask.uid = false ∧
      (diredAutoMask cw nflag width).mask.gid = false ∧
      (diredAutoMask cw nflag width).mask.links = false)
    ∧ ((diredAutoMask cw nflag width).w3 < 0 →
      (diredAutoMask cw nflag width).mask.uid = false ∧
      (diredAutoMask cw nflag width).mask.gid = false ∧
      (diredAutoMask cw nflag width).mask.links = false)
    ∧ ((diredAutoMask cw nflag width).w4 < 0 →
      (diredAutoMask cw nflag width).mask.gid = false ∧
      (diredAutoMask cw nflag width).mask.links = false)
    ∧ ((diredAutoMask cw nflag width).w5 < 0 →
      (diredAutoMask cw nflag width).mask.links = false) := by
  by_cases hn : nflag = 2
  · simp only [diredAutoMask, hn]
    norm_num
    omega
  · have hb : (nflag == 2) = false := by simp [hn]
    simp only [diredAutoMask, hb]
    norm_num
    omega

/-- Witness for C10 at a display width so small that the first
width-checked column already drives the budget negative. -/
theorem auto_mode_drops_are_monotone_witness :
    (diredAutoMask sampleWidths 0 0).mask.date = false ∧
    (diredAutoMask sampleWidths 0 0).mask.mode = false ∧
    (diredAutoMask sampleWidths 0 0).mask.uid = false ∧
    (diredAutoMask sampleWidths 0 0).mask.gid = false ∧
    (diredAutoMask sampleWidths 0 0).mask.links = false :=
  (auto_mode_drops_are_monotone sampleWidths 0 0).1 (by decide)

/-! ## Time-format configuration (dired_time_format_set_value, dired.c lines 940-962) -/

def TF_COMPACT : Nat := 0
def TF_DOS : Nat := 1
def TF_DOS_LONG : Nat := 2
def TF_TOUCH : Nat := 3
def TF_TOUCH_LONG : Nat := 4
def TF_FULL : Nat := 5
def TF_SECONDS : Nat := 6
def TF_MAX : Nat := TF_SECONDS

/-- The two QVarType results this setter can return. -/
inductive QVarTypeR
  | number
  | unknown
deriving DecidableEq, Repr

/-- Modelled from the spec: strxcmp (string helper defined outside
src/) compared against the literal configuration tokens; 0 iff equal. -/
def strxcmp (a b : String) : Int :=
  if a = b then 0 else 1

/-- dired_time_format_set_value: parse the token when a string is
given, rejecting unknown tokens before touching the stored format,
then bounds-check the numeric format. Returns the resulting stored
format together with the QVarType result. -/
def diredTimeFormatSetValue (str : Option String) (format0 : Int) (cur : Nat) :
    Nat × QVarTypeR :=
  let format : Option Int :=
    match str with
    | some s =>
      if strxcmp s "default" = 0 then some (TF_COMPACT : Nat)
      else if strxcmp s "compact" = 0 then some (TF_COMPACT : Nat)
      else if strxcmp s "dos" = 0 then some (TF_DOS : Nat)
      else if strxcmp s "dos-long" = 0 then some (TF_DOS_LONG : Nat)
      else if strxcmp s "touch" = 0 then some (TF_TOUCH : Nat)
      else if strxcmp s "touch-long" = 0 then some (TF_TOUCH_LONG : Nat)
      else if strxcmp s "full" = 0 then some (TF_FULL : Nat)
      else if strxcmp s "seconds" = 0 then some (TF_SECONDS : Nat)
      else none
    | none => some format0
  match format with
  | none => (cur, QVarTypeR.unknown)
  | some f =>
    if f < 0 ∨ f > (TF_MAX : Nat) then (cur, QVarTypeR.unknown)
    else (f.toNat, QVarTypeR.number)

/-- Claim C9: the time-format setter accepts exactly the tokens
default, compact, dos, dos-long, touch, touch-long, full and seconds,
mapping each to its format, and rejects any other string as a whole,
leaving the stored format unchanged. -/
theorem time_format_tokens_exact (format0 : Int) (cur : Nat) (s : String) :
    (s = "default" ∨ s = "compact" →
      diredTimeFormatSetValue (some s) format0 cur = (TF_COMPACT, QVarTypeR.number))
    ∧ (s = "dos" →
      diredTimeFormatSetValue (some s) format0 cur = (TF_DOS, QVarTypeR.number))
    ∧ (s = "dos-long" →
      diredTimeFormatSetValue (some s) format0 cur = (TF_DOS_LONG, QVarTypeR.number))
    ∧ (s = "touch" →
      diredTimeFormatSetValue (some s) format0 cur = (TF_TOUCH, QVarTypeR.number))
    ∧ (s = "touch-long" →
      diredTimeFormatSetValue (some s) format0 cur = (TF_TOUCH_LONG, QVarTypeR.number))
    ∧ (s = "full" →
      diredTimeFormatSetValue (some s) format0 cur = (TF_FULL, QVarTypeR.number))
    ∧ (s = "seconds" →
      diredTimeFormatSetValue (some s) format0 cur = (TF_SECONDS, QVarTypeR.number))
    ∧ (s ∉ ["default", "compact", "dos", "dos-long", "touch", "touch-long",
            "full", "seconds"] →
      diredTimeFormatSetValue (some s) format0 cur = (cur, QVarTypeR.unknown)) := by
  refine ⟨?_, ?_, ?_, ?_, ?_, ?_, ?_, ?_⟩
  · rintro (rfl | rfl) <;> rfl
  · rintro rfl; rfl
  · rintro rfl; rfl
  · rintro rfl; rfl
  · rintro rfl; rfl
  · rintro rfl; rfl
  · rintro rfl; rfl
  · intro hs
    simp only [List.mem_cons, List.not_mem_nil, or_false, not_or] at hs
    obtain ⟨n1, n2, n3, n4, n5, n6, n7, n8⟩ := hs
    simp only [diredTimeFormatSetValue, strxcmp, n1, n2, n3, n4, n5, n6, n7, n8,
      if_false, ite_false]
    norm_num

/-- Witness for C9: the token dos is accepted and mapped, and a
non-token string is rejected leaving the stored format unchanged. -/
theorem time_format_tokens_exact_witness :
    diredTimeFormatSetValue (some "dos") 0 5 = (TF_DOS, QVarTypeR.number)
    ∧ diredTimeFormatSetValue (some "bogus") 0 5 = (5, QVarTypeR.unknown) :=
  ⟨(time_format_tokens_exact 0 5 "dos").2.1 rfl,
   (time_format_tokens_exact 0 5 "bogus").2.2.2.2.2.2.2 (by decide)⟩

/-! ## Update orchestrator (dired_update_buffer, dired.c lines 660-698) -/

/-- The DIRED_UPDATE_* dirty-bit mask as one boolean per bit. -/
structure UpdateFlags where
  sort : Bool
  filter : Bool
  columns : Bool
  rebuild : Bool
deriving Repr, DecidableEq

/-- The process-wide configuration read by the dirty checks
(dired_sort_mode, dired_show_dot_files, dired_show_ds_store,
dired_time_format, dired_nflag, dired_hflag). -/
structure DiredGlobals where
  sortMode : Nat
  showDotFiles : Bool
  showDsStore : Bool
  timeFormat : Nat
  nflag : Nat
  hflag : Nat
deriving Repr, DecidableEq

/-- The DiredState fields involved in the orchestration: the cached
configuration snapshot, the detail flags, the items and the counters. -/
structure DiredSnap where
  sortMode : Nat
  showDotFiles : Bool
  showDsStore : Bool
  timeFormat : Nat
  nflag : Nat
  hflag : Nat
  detailsFlag : Nat
  lastDetailsFlag : Nat
  items : List DiredItem
  counts : FilterCounts
deriving Repr, DecidableEq

/-- Modelled from the spec: qe_qsort_r (defined outside src/) reorders
the items according to the comparator; modelled as insertion sort. -/
def sortInsert (cmp : DiredItem → DiredItem → Int) (d : DiredItem) :
    List DiredItem → List DiredItem
  | [] => [d]
  | x :: xs => if cmp d x ≤ 0 then d :: x :: xs else x :: sortInsert cmp d xs

def sortItems (cmp : DiredItem → DiredItem → Int) (l : List DiredItem) : List DiredItem :=
  l.foldr (sortInsert cmp) []

/-- The sort stage (lines 663-668): cache the sort mode and reorder
the items with dired_sort_func. -/
def sortStage (g : DiredGlobals) (ds : DiredSnap) : DiredSnap :=
  { ds with sortMode := g.sortMode,
            items := sortItems (diredSortFunc g.sortMode) ds.items }

/-- The filter stage (line 677 calling dired_filter_files, which caches
the visibility flags at lines 544-545 and recomputes the counters). -/
def filterStage (g : DiredGlobals) (ds : DiredSnap) : DiredSnap :=
  { ds with showDotFiles := g.showDotFiles,
            showDsStore := g.showDsStore,
            items := (diredFilterFiles g.showDotFiles g.showDsStore ds.items).1,
            counts := (diredFilterFiles g.showDotFiles g.showDsStore ds.items).2 }

/-- The columns stage (dired_compute_columns, lines 584-587): caches
the formatting-policy snapshot read by the dirty checks. -/
def columnsStage (g : DiredGlobals) (ds : DiredSnap) : DiredSnap :=
  { ds with timeFormat := g.timeFormat, nflag := g.nflag, hflag := g.hflag }

/-- The sort check and stage (lines 660-668): derive the sort bit from
sort-mode drift, and when it is set cascade into the rebuild bit and
run the sort stage. -/
def stepSort (g : DiredGlobals) (st : UpdateFlags × DiredSnap) : UpdateFlags × DiredSnap :=
  let flags := if st.2.sortMode ≠ g.sortMode then { st.1 with sort := true } else st.1
  if flags.sort then ({ flags with rebuild := true }, sortStage g st.2)
  else (flags, st.2)

/-- The filter check and stage (lines 670-678). -/
def stepFilter (g : DiredGlobals) (st : UpdateFlags × DiredSnap) : UpdateFlags × DiredSnap :=
  let flags := if st.2.showDotFiles ≠ g.showDotFiles ∨ st.2.showDsStore ≠ g.showDsStore
               then { st.1 with filter := true } else st.1
  if flags.filter then ({ flags with rebuild := true }, filterStage g st.2)
  else (flags, st.2)

/-- The columns check and stage (lines 680-690). -/
def stepColumns (g : DiredGlobals) (st : UpdateFlags × DiredSnap) : UpdateFlags × DiredSnap :=
  let flags := if st.2.timeFormat ≠ g.timeFormat ∨ st.2.nflag ≠ g.nflag
                  ∨ st.2.hflag ≠ g.hflag ∨ st.2.detailsFlag ≠ st.2.lastDetailsFlag
               then { st.1 with columns := true } else st.1
  if flags.columns then ({ flags with rebuild := true }, columnsStage g st.2)
  else (flags, st.2)

/-- dired_update_buffer's orchestration (lines 660-698): run the three
checks-and-stages in source order, then regenerate the rendered buffer
only when the rebuild bit ends up set (line 692 returns otherwise,
line 695 caches the detail flag before the rebuild). -/
def diredUpdateBuffer (g : DiredGlobals) (render : DiredSnap → List String)
    (ds0 : DiredSnap) (buf : List String) (flags0 : UpdateFlags) :
    DiredSnap × List String × UpdateFlags :=
  let st := stepColumns g (stepFilter g (stepSort g (flags0, ds0)))
  if !st.1.rebuild then (st.2, buf, st.1)
  else
    let ds4 := { st.2 with lastDetailsFlag := st.2.detailsFlag }
    (ds4, render ds4, st.1)

lemma stepSort_flags (g : DiredGlobals) (st : UpdateFlags × DiredSnap) :
    ((stepSort g st).1.sort = true → (stepSort g st).1.rebuild = true)
    ∧ (stepSort g st).1.filter = st.1.filter
    ∧ (stepSort g st).1.columns = st.1.columns
    ∧ (st.1.rebuild = true → (stepSort g st).1.rebuild = true) := by
  simp only [stepSort]
  split_ifs <;> simp_all

lemma stepFilter_flags (g : DiredGlobals) (st : UpdateFlags × DiredSnap) :
    ((stepFilter g st).1.filter = true → (stepFilter g st).1.rebuild = true)
    ∧ (stepFilter g st).1.sort = st.1.sort
    ∧ (stepFilter g st).1.columns = st.1.columns
    ∧ (st.1.rebuild = true → (stepFilter g st).1.rebuild = true) := by
  simp only [stepFilter]
  split_ifs <;> simp_all

lemma stepColumns_flags (g : DiredGlobals) (st : UpdateFlags × DiredSnap) :
    ((stepColumns g st).1.columns = true → (stepColumns g st).1.rebuild = true)
    ∧ (stepColumns g st).1.sort = st.1.sort
    ∧ (stepColumns g st).1.filter = st.1.filter
    ∧ (st.1.rebuild = true → (stepColumns g st).1.rebuild = true) := by
  simp only [stepColumns]
  split_ifs <;> simp_all

lemma updateBuffer_flags_eq (g : DiredGlobals) (render : DiredSnap → List String)
    (ds0 : DiredSnap) (buf : List String) (flags0 : UpdateFlags) :
    (diredUpdateBuffer g render ds0 buf flags0).2.2 =
      (stepColumns g (stepFilter g (stepSort g (flags0, ds0)))).1 := by
  simp only [diredUpdateBuffer]
  split_ifs <;> rfl

lemma updateBuffer_rebuild_renders (g : DiredGlobals) (render : DiredSnap → List String)
    (ds0 : DiredSnap) (buf : List String) (flags0 : UpdateFlags)
    (hr : (stepColumns g (stepFilter g (stepSort g (flags0, ds0)))).1.rebuild = true) :
    (diredUpdateBuffer g render ds0 buf flags0).2.1 =
      render (diredUpdateBuffer g render ds0 buf flags0).1 := by
  simp only [diredUpdateBuffer, hr]
  norm_num

/-- Claim C8: whenever any of the sort, filter or columns dirty bits is
set in the outcome (passed in or derived from configuration drift),
the rebuild bit is set too and the rendered buffer is regenerated from
the final state; conversely, with no bit passed in and no
configuration drift, the update is a no-op returning the state, buffer
and flags unchanged. -/
theorem update_cascades_rebuild_and_noop (g : DiredGlobals)
    (render : DiredSnap → List String) (ds0 : DiredSnap) (buf : List String)
    (flags0 : UpdateFlags) :
    (((diredUpdateBuffer g render ds0 buf flags0).2.2.sort = true
      ∨ (diredUpdateBuffer g render ds0 buf flags0).2.2.filter = true
      ∨ (diredUpdateBuffer g render ds0 buf flags0).2.2.columns = true) →
      (diredUpdateBuffer g render ds0 buf flags0).2.2.rebuild = true
      ∧ (diredUpdateBuffer g render ds0 buf flags0).2.1 =
          render (diredUpdateBuffer g render ds0 buf flags0).1)
    ∧ (flags0 = ⟨false, false, false, false⟩ →
       ds0.sortMode = g.sortMode →
       ds0.showDotFiles = g.showDotFiles →
       ds0.showDsStore = g.showDsStore →
       ds0.timeFormat = g.timeFormat →
       ds0.nflag = g.nflag →
       ds0.hflag = g.hflag →
       ds0.detailsFlag = ds0.lastDetailsFlag →
       diredUpdateBuffer g render ds0 buf flags0 = (ds0, buf, flags0)) := by
  constructor
  · intro h
    rw [updateBuffer_flags_eq] at h
    have hr : (stepColumns g (stepFilter g (stepSort g (flags0, ds0)))).1.rebuild = true := by
      rcases h with hs | hf | hc
      · rw [(stepColumns_flags g _).2.1, (stepFilter_flags g _).2.1] at hs
        have h1 := (stepSort_flags g (flags0, ds0)).1 hs
        have h2 := (stepFilter_flags g (stepSort g (flags0, ds0))).2.2.2 h1
        exact (stepColumns_flags g (stepFilter g (stepSort g (flags0, ds0)))).2.2.2 h2
      · rw [(stepColumns_flags g _).2.2.1] at hf
        have h1 := (stepFilter_flags g (stepSort g (flags0, ds0))).1 hf
        exact (stepColumns_flags g (stepFilter g (stepSort g (flags0, ds0)))).2.2.2 h1
      · exact (stepColumns_flags g (stepFilter g (stepSort g (flags0, ds0)))).1 hc
    constructor
    · rw [updateBuffer_flags_eq]
      exact hr
    · exact updateBuffer_rebuild_renders g render ds0 buf flags0 hr
  · intro h0 h1 h2 h3 h4 h5 h6 h7
    subst h0
    have e1 : stepSort g (⟨false, false, false, false⟩, ds0) =
        (⟨false, false, false, false⟩, ds0) := by
      simp [stepSort, h1]
    have e2 : stepFilter g (⟨false, false, false, false⟩, ds0) =
        (⟨false, false, false, false⟩, ds0) := by
      simp [stepFilter, h2, h3]
    have e3 : stepColumns g (⟨false, false, false, false⟩, ds0) =
        (⟨false, false, false, false⟩, ds0) := by
      simp [stepColumns, h4, h5, h6, h7]
    simp only [diredUpdateBuffer, e1, e2, e3]
    norm_num

def sampleGlobals : DiredGlobals := ⟨49, true, false, 0, 0, 0⟩

def sampleSnap : DiredSnap := ⟨49, true, false, 0, 0, 0, 0, 0, [], ⟨0, 0, 0, 0, 0⟩⟩

/-- Witness for C8: with no dirty bit and a matching configuration
snapshot the orchestrator returns its inputs unchanged. -/
theorem update_cascades_rebuild_and_noop_witness :
    diredUpdateBuffer sampleGlobals (fun _ => [])
        sampleSnap [] ⟨false, false, false, false⟩ =
      (sampleSnap, [], ⟨false, false, false, false⟩) :=
  (update_cascades_rebuild_and_noop sampleGlobals (fun _ => [])
      sampleSnap [] ⟨false, false, false, false⟩).2
    rfl rfl rfl rfl rfl rfl rfl rfl

end Dired
